import Mathlib

/-!
Shallow embedding of the retiarius UDP relay.

Source layout:
* src/main.rs — Datagram, ChanneledSocket (the socket pump), Router, main, Args.
* src/filters/mod.rs, src/filters/drop_chance.rs — the Filter trait and the
  DropChance filter.

Network I/O is made explicit: the bytes and sender address delivered by a
recv_from call, the uniform roll drawn by the filter, and the success or
failure of the bind/connect calls during session creation are parameters of
the corresponding functions.  Machine integers (ports, bytes, the socket
counter) are modelled as Nat; the f64 drop probability and roll are modelled
as Rat, which carries the order that the comparison `roll < drop_percent`
uses on the finite f64 values involved.
-/

namespace Retiarius

/-- BUFFER_SIZE from main.rs: the maximum transfer size of one datagram. -/
def BUFFER_SIZE : Nat := 1500

/-- an IPv4 host address, four octets; stands for the host part of a Rust
std SocketAddr (the only addresses the program constructs are IPv4). -/
structure IpAddr where
  octet0 : Nat
  octet1 : Nat
  octet2 : Nat
  octet3 : Nat
deriving DecidableEq, Repr

/-- a socket address: host plus UDP port. -/
structure SocketAddr where
  ip : IpAddr
  port : Nat
deriving DecidableEq, Repr

/-- Datagram from main.rs: an immutable byte payload plus provenance and
destination metadata. -/
structure Datagram where
  payload : List Nat
  origin : SocketAddr
  destination : Option SocketAddr
deriving DecidableEq, Repr

/-- Datagram::set_destination from main.rs: sets the destination field and
returns the datagram. -/
def Datagram.set_destination (d : Datagram) (destination : SocketAddr) : Datagram :=
  { d with destination := some destination }

/-- one network write performed by a ChanneledSocket send loop:
`send_to(&message.payload, destination)`. -/
inductive SendAction where
  | sendTo (payload : List Nat) (destination : SocketAddr)
deriving DecidableEq, Repr

/-- body of the ChanneledSocket send loop (main.rs, the `_socket_send` task)
for one message taken from the outbound channel: when the destination is
present the full payload is written to the socket addressed to it; `none`
models the branch that hits `unreachable!` on a missing destination, which
panics and terminates the loop. -/
def sendLoopBody (message : Datagram) : Option SendAction :=
  match message.destination with
  | some destination => some (SendAction.sendTo message.payload destination)
  | none => none

/-- the send loop consuming the outbound channel: the channel is a FIFO
queue, modelled as the list of messages in enqueue order, and the loop
takes one message at a time; a message with no destination panics the loop,
so nothing after it is processed. -/
def sendLoopRun : List Datagram → List SendAction
  | [] => []
  | message :: rest =>
    match sendLoopBody message with
    | some action => action :: sendLoopRun rest
    | none => []

/-- the Datagram built by the ChanneledSocket receive loop (main.rs, the
`_socket_recv` task) from one successful recv_from delivering bytes `data`
from address `origin`: origin set, destination None. -/
def recvDatagram (data : List Nat) (origin : SocketAddr) : Datagram :=
  { payload := data, origin := origin, destination := none }

/-- DropChance from filters/drop_chance.rs: a filter holding the configured
drop probability (an f64 in the source, modelled as Rat). -/
structure DropChance where
  drop_percent : Rat

/-- DropChance::apply from filters/drop_chance.rs, with the uniform roll
drawn from thread_rng (an f64 in [0,1)) made an explicit argument: if the
roll is less than drop_percent the datagram is dropped, otherwise it is
passed through unchanged. -/
def DropChance.apply (f : DropChance) (roll : Rat) (input : Datagram) : Option Datagram :=
  if roll < f.drop_percent then none else some input

/-- a local bind address, as passed to UdpSocket::bind. -/
structure BindSpec where
  ip : IpAddr
  port : Nat
deriving DecidableEq, Repr

/-- the bind address of every per-client proxy socket created by the Router:
`UdpSocket::bind(("127.0.0.1", 0))` — loopback, OS-assigned port. -/
def proxyBindSpec : BindSpec := ⟨⟨127, 0, 0, 1⟩, 0⟩

/-- the bind address of the client-facing socket created in main:
`UdpSocket::bind(("0.0.0.0", args.listen_port))`. -/
def clientBindSpec (listen_port : Nat) : BindSpec := ⟨⟨0, 0, 0, 0⟩, listen_port⟩

/-- a Route from main.rs: the backend ChanneledSocket (represented by the
identity `socketId` that the router state assigned to its socket and the
address the socket was bound to) together with the `destination` captured
by the route's `_recv_task`, namely `message.origin` of the datagram whose
arrival created the route. -/
structure Route where
  clientAddr : SocketAddr
  socketId : Nat
  bindSpec : BindSpec
deriving DecidableEq, Repr

/-- the Router task's state: `routes` is the HashMap from client address to
Route, modelled as an association list in insertion order (faithful because
an entry is only ever inserted when its key is vacant); `nextSocketId`
counts the backend sockets created so far, giving each a distinct identity;
`backendSent` is the trace of datagrams the router has enqueued onto backend
pumps' outbound channels, tagged with the pump's socket identity, in enqueue
order. -/
structure RouterState where
  routes : List (SocketAddr × Route)
  nextSocketId : Nat
  backendSent : List (Nat × Datagram)
deriving DecidableEq, Repr

/-- the router's state when main starts it: `HashMap::new()`, no sockets
created, nothing sent. -/
def initState : RouterState := ⟨[], 0, []⟩

/-- the two expect panics that can abort session creation in the router
loop: "unable to bind proxy socket" and "failed to connect proxy socket to
server address". -/
inductive Panic where
  | bindFail
  | connectFail
deriving DecidableEq, Repr

/-- one iteration of the Router loop (main.rs, Router::new) on a message
received from the client pump's inbound channel.  `bindOk` and `connectOk`
are the outcomes of the two fallible I/O calls made when a session is
created (they are unused when the origin already has a route).  If the
origin has no route: bind a proxy socket on ("127.0.0.1", 0), connect it to
`server`, wrap it in a ChanneledSocket with a recv task that captures the
origin as reply destination, and insert the route; an I/O failure hits an
expect, panicking the router task (the error result).  Then the message,
stamped with `server` as destination, is enqueued onto the route's backend
outbound channel. -/
def routerStep (server : SocketAddr) (bindOk connectOk : Bool)
    (st : RouterState) (message : Datagram) : Except Panic RouterState :=
  let ensured : Except Panic RouterState :=
    match st.routes.lookup message.origin with
    | some _ => Except.ok st
    | none =>
      match bindOk with
      | false => Except.error Panic.bindFail
      | true =>
        match connectOk with
        | false => Except.error Panic.connectFail
        | true =>
          Except.ok
            { st with
              routes := st.routes ++
                [(message.origin,
                  { clientAddr := message.origin
                    socketId := st.nextSocketId
                    bindSpec := proxyBindSpec })]
              nextSocketId := st.nextSocketId + 1 }
  match ensured with
  | Except.error p => Except.error p
  | Except.ok st1 =>
    match st1.routes.lookup message.origin with
    | some route =>
      Except.ok
        { st1 with
          backendSent := st1.backendSent ++
            [(route.socketId, message.set_destination server)] }
    | none => Except.ok st1

/-- the Router loop run over a sequence of client-pump datagrams in channel
(FIFO) order, with every bind and connect succeeding. -/
def routerRun (server : SocketAddr) : RouterState → List Datagram → Except Panic RouterState
  | st, [] => Except.ok st
  | st, d :: ds =>
    match routerStep server true true st d with
    | Except.error p => Except.error p
    | Except.ok st1 => routerRun server st1 ds

/-- body of a route's `_recv_task` (main.rs, Router::new) for one datagram
received from the proxy socket's inbound channel: stamp the captured client
address as destination; the result is what the task enqueues onto the
client-facing pump's outbound channel. -/
def replyStep (destination : SocketAddr) (received : Datagram) : Datagram :=
  received.set_destination destination

/-- Args from main.rs: the recognized configuration, a listen port (u16)
and a server address.  The drop_percent option is commented out in the
source and is not part of the struct. -/
structure Args where
  listen_port : Nat
  server_addr : SocketAddr
deriving DecidableEq, Repr

/-- the long option names clap derives from the Args struct; these are the
only options the command line parser accepts. -/
def knownOptions : List String := ["--listen-port", "--server-addr"]

/-- Args::parse, modelling clap derive(Parser) semantics for this struct:
the command line is a list of (long option, value) pairs; any option outside
`knownOptions` is an unexpected-argument error, both options are required,
and each value must parse (value parsing for u16 and SocketAddr is std
FromStr, passed in as `parsePort` and `parseAddr`).  `none` is a clap error:
the process prints a diagnostic and exits with a non-zero status. -/
def parseArgs (parsePort : String → Option Nat) (parseAddr : String → Option SocketAddr)
    (argv : List (String × String)) : Option Args :=
  if argv.all (fun a => knownOptions.contains a.1) then
    match argv.lookup ("--listen-port"), argv.lookup ("--server-addr") with
    | some pv, some av =>
      match parsePort pv, parseAddr av with
      | some p, some a => some { listen_port := p, server_addr := a }
      | _, _ => none
    | _, _ => none
  else none

/-- the observable outcome of main's startup sequence. -/
inductive StartupResult where
  | configError
  | running (clientBind : BindSpec) (server : SocketAddr)
deriving DecidableEq, Repr

/-- startup sequence of main (main.rs): Args::parse runs first and exits the
process on a configuration error, before any socket is bound; on success the
client-facing socket is bound on ("0.0.0.0", listen_port) and the router is
started toward server_addr. -/
def mainStartup (parsePort : String → Option Nat) (parseAddr : String → Option SocketAddr)
    (argv : List (String × String)) : StartupResult :=
  match parseArgs parsePort parseAddr argv with
  | none => StartupResult.configError
  | some args => StartupResult.running (clientBindSpec args.listen_port) args.server_addr

/-- the datagrams the router enqueued, in order, onto the outbound channel
of the backend pump whose socket has identity `sid`. -/
def sentToSocket (sid : Nat) (st : RouterState) : List Datagram :=
  (st.backendSent.filter (fun q => q.1 == sid)).map Prod.snd

/-- invariant of the router state reached from `initState` under runs where
all I/O succeeds: every route's captured reply destination is its own key,
every route's socket is bound on ("127.0.0.1", 0), socket identities are
below the counter and pairwise distinct, and everything enqueued to a
backend pump carries the server address as destination and a socket
identity below the counter. -/
def RouterInv (server : SocketAddr) (st : RouterState) : Prop :=
  (∀ p ∈ st.routes,
      p.2.clientAddr = p.1 ∧ p.2.bindSpec = proxyBindSpec ∧ p.2.socketId < st.nextSocketId) ∧
  (st.routes.map (fun p => p.2.socketId)).Nodup ∧
  (∀ q ∈ st.backendSent, q.1 < st.nextSocketId ∧ q.2.destination = some server)

section SampleInputs

/-- a sample client address, used by witnesses. -/
def addrA : SocketAddr := ⟨⟨10, 0, 0, 1⟩, 4000⟩

/-- a second, distinct sample client address. -/
def addrB : SocketAddr := ⟨⟨10, 0, 0, 2⟩, 4001⟩

/-- a sample backend server address. -/
def addrS : SocketAddr := ⟨⟨127, 0, 0, 1⟩, 7000⟩

/-- a sample datagram as produced by the client pump's receive loop from
addrA. -/
def dgA : Datagram := ⟨[1, 2, 3], addrA, none⟩

/-- a second sample datagram from addrA. -/
def dgA2 : Datagram := ⟨[4, 5], addrA, none⟩

/-- a sample datagram from addrB. -/
def dgB : Datagram := ⟨[9], addrB, none⟩

/-- the router state after initState processes dgA toward addrS. -/
def stA : RouterState :=
  ⟨[(addrA, ⟨addrA, 0, proxyBindSpec⟩)], 1, [(0, dgA.set_destination addrS)]⟩

/-- the router state after initState processes dgA, dgB, dgA2 toward addrS. -/
def stABA : RouterState :=
  ⟨[(addrA, ⟨addrA, 0, proxyBindSpec⟩), (addrB, ⟨addrB, 1, proxyBindSpec⟩)], 2,
   [(0, dgA.set_destination addrS), (1, dgB.set_destination addrS),
    (0, dgA2.set_destination addrS)]⟩

end SampleInputs

/-! ### Association list helper lemmas -/

theorem mem_of_lookup_eq_some {α β : Type} [BEq α] [LawfulBEq α] {k : α} {v : β} :
    ∀ {l : List (α × β)}, l.lookup k = some v → (k, v) ∈ l := by
  intro l
  induction l with
  | nil => intro h; simp at h
  | cons a l ih =>
    intro h
    obtain ⟨k', v'⟩ := a
    by_cases hk : k = k'
    · subst hk
      simp [List.lookup_cons] at h
      subst h
      exact List.mem_cons_self _ _
    · simp [List.lookup_cons, beq_false_of_ne hk] at h
      exact List.mem_cons_of_mem _ (ih h)

theorem lookup_append_of_some {α β : Type} [BEq α] [LawfulBEq α] {k : α} {v : β} :
    ∀ {l₁ : List (α × β)} (l₂ : List (α × β)), l₁.lookup k = some v →
      (l₁ ++ l₂).lookup k = some v := by
  intro l₁
  induction l₁ with
  | nil => intro l₂ h; simp at h
  | cons a l ih =>
    intro l₂ h
    obtain ⟨k', v'⟩ := a
    by_cases hk : k = k'
    · subst hk
      simp [List.lookup_cons] at h ⊢
      exact h
    · simp [List.lookup_cons, beq_false_of_ne hk] at h ⊢
      exact ih l₂ h

theorem lookup_append_of_none {α β : Type} [BEq α] [LawfulBEq α] {k : α} :
    ∀ {l₁ : List (α × β)} (l₂ : List (α × β)), l₁.lookup k = none →
      (l₁ ++ l₂).lookup k = l₂.lookup k := by
  intro l₁
  induction l₁ with
  | nil => intro l₂ _; simp
  | cons a l ih =>
    intro l₂ h
    obtain ⟨k', v'⟩ := a
    by_cases hk : k = k'
    · subst hk
      simp [List.lookup_cons] at h
    · simp only [List.cons_append, List.lookup_cons, beq_false_of_ne hk] at h ⊢
      exact ih l₂ h

theorem lookup_singleton_self {α β : Type} [BEq α] [LawfulBEq α] (k : α) (v : β) :
    ([(k, v)] : List (α × β)).lookup k = some v := by
  simp [List.lookup_cons]

theorem lookup_singleton_of_ne {α β : Type} [BEq α] [LawfulBEq α] {k k' : α} (v : β)
    (h : k ≠ k') : ([(k', v)] : List (α × β)).lookup k = none := by
  simp [List.lookup_cons, beq_false_of_ne h]

/-! ### Characterization of one router iteration -/

theorem routerStep_existing (server : SocketAddr) (bindOk connectOk : Bool)
    {st : RouterState} {d : Datagram} {r : Route}
    (h : st.routes.lookup d.origin = some r) :
    routerStep server bindOk connectOk st d = Except.ok
      { st with backendSent := st.backendSent ++ [(r.socketId, d.set_destination server)] } := by
  simp only [routerStep, h]

theorem routerStep_fresh (server : SocketAddr) {st : RouterState} {d : Datagram}
    (h : st.routes.lookup d.origin = none) :
    routerStep server true true st d = Except.ok
      ⟨st.routes ++ [(d.origin, ⟨d.origin, st.nextSocketId, proxyBindSpec⟩)],
       st.nextSocketId + 1,
       st.backendSent ++ [(st.nextSocketId, d.set_destination server)]⟩ := by
  simp only [routerStep, h]
  rw [lookup_append_of_none _ h, lookup_singleton_self]

theorem routerStep_bindFail (server : SocketAddr) (connectOk : Bool)
    {st : RouterState} {d : Datagram} (h : st.routes.lookup d.origin = none) :
    routerStep server false connectOk st d = Except.error Panic.bindFail := by
  simp only [routerStep, h]

theorem routerStep_connectFail (server : SocketAddr)
    {st : RouterState} {d : Datagram} (h : st.routes.lookup d.origin = none) :
    routerStep server true false st d = Except.error Panic.connectFail := by
  simp only [routerStep, h]

theorem routerRun_cons_ok {server : SocketAddr} {st st1 : RouterState} {d : Datagram}
    {ds : List Datagram} (h : routerStep server true true st d = Except.ok st1) :
    routerRun server st (d :: ds) = routerRun server st1 ds := by
  simp only [routerRun, h]

/-- with all I/O succeeding, one router iteration always produces a state. -/
theorem routerStep_total (server : SocketAddr) (st : RouterState) (d : Datagram) :
    ∃ st1, routerStep server true true st d = Except.ok st1 := by
  cases hl : st.routes.lookup d.origin with
  | some r => exact ⟨_, routerStep_existing server true true hl⟩
  | none => exact ⟨_, routerStep_fresh server hl⟩

/-! ### The router invariant -/

theorem routerInv_init (server : SocketAddr) : RouterInv server initState := by
  refine ⟨?_, ?_, ?_⟩
  · intro p hp; simp [initState] at hp
  · simp [initState]
  · intro q hq; simp [initState] at hq

theorem routerInv_step {server : SocketAddr} {st st' : RouterState} {d : Datagram}
    (hinv : RouterInv server st)
    (hstep : routerStep server true true st d = Except.ok st') :
    RouterInv server st' := by
  obtain ⟨h1, h2, h3⟩ := hinv
  cases hl : st.routes.lookup d.origin with
  | some r =>
    rw [routerStep_existing server true true hl] at hstep
    cases hstep
    refine ⟨h1, h2, ?_⟩
    intro q hq
    rcases List.mem_append.mp hq with hq | hq
    · exact h3 q hq
    · rcases List.mem_singleton.mp hq with rfl
      refine ⟨(h1 _ (mem_of_lookup_eq_some hl)).2.2, rfl⟩
  | none =>
    rw [routerStep_fresh server hl] at hstep
    cases hstep
    refine ⟨?_, ?_, ?_⟩
    · intro p hp
      rcases List.mem_append.mp hp with hp | hp
      · obtain ⟨hc, hb, hs⟩ := h1 p hp
        exact ⟨hc, hb, Nat.lt_succ_of_lt hs⟩
      · rcases List.mem_singleton.mp hp with rfl
        exact ⟨rfl, rfl, Nat.lt_succ_self _⟩
    · rw [List.map_append]
      rw [List.nodup_append]
      refine ⟨h2, List.nodup_singleton _, ?_⟩
      intro a ha hb
      rcases List.mem_map.mp ha with ⟨p, hp, rfl⟩
      rcases List.mem_singleton.mp (by simpa using hb) with h
      exact absurd ((h1 p hp).2.2) (by rw [h]; exact Nat.lt_irrefl _)
    · intro q hq
      rcases List.mem_append.mp hq with hq | hq
      · obtain ⟨hs, hd⟩ := h3 q hq
        exact ⟨Nat.lt_succ_of_lt hs, hd⟩
      · rcases List.mem_singleton.mp hq with rfl
        exact ⟨Nat.lt_succ_self _, rfl⟩

theorem routerInv_run {server : SocketAddr} {st st' : RouterState} {ds : List Datagram}
    (hinv : RouterInv server st)
    (hrun : routerRun server st ds = Except.ok st') : RouterInv server st' := by
  induction ds generalizing st with
  | nil =>
    simp only [routerRun] at hrun
    cases hrun
    exact hinv
  | cons d ds ih =>
    obtain ⟨st1, hst1⟩ := routerStep_total server st d
    rw [routerRun_cons_ok hst1] at hrun
    exact ih (routerInv_step hinv hst1) hrun

/-! ### Per-session FIFO through the router -/

theorem sentToSocket_snoc (sid s : Nat) (dg : Datagram) (st : RouterState) :
    sentToSocket sid { st with backendSent := st.backendSent ++ [(s, dg)] } =
      sentToSocket sid st ++ (if s = sid then [dg] else []) := by
  by_cases h : s = sid
  · simp [sentToSocket, List.filter_append, h]
  · simp [sentToSocket, List.filter_append, beq_false_of_ne h, h]

theorem sentToSocket_of_forall_lt {st : RouterState} {sid : Nat}
    (h : ∀ q ∈ st.backendSent, q.1 < sid) : sentToSocket sid st = [] := by
  refine List.length_eq_zero.mp ?_
  simp only [sentToSocket, List.length_map, List.length_eq_zero, List.filter_eq_nil_iff]
  intro q hq
  have := h q hq
  simp only [beq_iff_eq]
  exact Nat.ne_of_lt this

theorem lookup_stable_step {server : SocketAddr} {st st' : RouterState} {d : Datagram}
    {o : SocketAddr} {r : Route} (h : st.routes.lookup o = some r)
    (hstep : routerStep server true true st d = Except.ok st') :
    st'.routes.lookup o = some r := by
  cases hl : st.routes.lookup d.origin with
  | some r2 =>
    rw [routerStep_existing server true true hl] at hstep
    cases hstep
    exact h
  | none =>
    rw [routerStep_fresh server hl] at hstep
    cases hstep
    exact lookup_append_of_some _ h

theorem lookup_stable_run {server : SocketAddr} {st st' : RouterState} {ds : List Datagram}
    {o : SocketAddr} {r : Route} (h : st.routes.lookup o = some r)
    (hrun : routerRun server st ds = Except.ok st') :
    st'.routes.lookup o = some r := by
  induction ds generalizing st with
  | nil =>
    simp only [routerRun] at hrun
    cases hrun
    exact h
  | cons d ds ih =>
    obtain ⟨st1, hst1⟩ := routerStep_total server st d
    rw [routerRun_cons_ok hst1] at hrun
    exact ih (lookup_stable_step h hst1) hrun

/-- a run from a state whose table already holds a route for `o` appends to
that route's backend outbound channel exactly the datagrams of the run whose
origin is `o`, in order, each stamped with the server address. -/
theorem sentTo_run_existing {server : SocketAddr} {ds : List Datagram}
    {st st' : RouterState} {o : SocketAddr} {r : Route}
    (hinv : RouterInv server st) (hl : st.routes.lookup o = some r)
    (hrun : routerRun server st ds = Except.ok st') :
    sentToSocket r.socketId st' =
      sentToSocket r.socketId st ++
        (ds.filter (fun d => d.origin == o)).map (fun d => d.set_destination server) := by
  induction ds generalizing st with
  | nil =>
    simp only [routerRun] at hrun
    cases hrun
    simp
  | cons d ds ih =>
    cases hl2 : st.routes.lookup d.origin with
    | some r2 =>
      have hstep := routerStep_existing server true true hl2
      rw [routerRun_cons_ok hstep] at hrun
      have hinv1 := routerInv_step hinv hstep
      by_cases ho : d.origin = o
      · have hr2 : r2 = r := by
          rw [ho] at hl2
          rw [hl2] at hl
          injection hl
        subst hr2
        have := ih hinv1 hl hrun
        rw [this, sentToSocket_snoc]
        simp [List.filter_cons, ho, List.append_assoc]
      · have hne : r2.socketId ≠ r.socketId := by
          intro he
          have hmem2 := mem_of_lookup_eq_some hl2
          have hmem := mem_of_lookup_eq_some hl
          have := List.inj_on_of_nodup_map hinv.2.1 hmem2 hmem he
          exact ho (congrArg Prod.fst this)
        have := ih hinv1 hl hrun
        rw [this, sentToSocket_snoc]
        simp [List.filter_cons, beq_false_of_ne ho, hne]
    | none =>
      have hstep := routerStep_fresh server hl2
      rw [routerRun_cons_ok hstep] at hrun
      have hinv1 := routerInv_step hinv hstep
      have ho : d.origin ≠ o := by
        intro he
        rw [he, hl] at hl2
        cases hl2
      have hl1 : (st.routes ++
          [(d.origin, (⟨d.origin, st.nextSocketId, proxyBindSpec⟩ : Route))]).lookup o =
          some r := lookup_append_of_some _ hl
      have hlt : r.socketId < st.nextSocketId := (hinv.1 _ (mem_of_lookup_eq_some hl)).2.2
      have := ih hinv1 hl1 hrun
      rw [this]
      rw [show sentToSocket r.socketId
          (⟨st.routes ++ [(d.origin, ⟨d.origin, st.nextSocketId, proxyBindSpec⟩)],
            st.nextSocketId + 1,
            st.backendSent ++ [(st.nextSocketId, d.set_destination server)]⟩ : RouterState) =
          sentToSocket r.socketId st ++
            (if st.nextSocketId = r.socketId then [d.set_destination server] else [])
        from sentToSocket_snoc _ _ _ st]
      have hne : st.nextSocketId ≠ r.socketId := fun he => Nat.lt_irrefl _ (he ▸ hlt)
      simp [List.filter_cons, beq_false_of_ne ho, hne]

/-- a run from a state whose table has no route for `o` delivers to the
backend socket eventually created for `o` exactly the datagrams of the run
whose origin is `o`, in order, each stamped with the server address. -/
theorem sentTo_run_fresh {server : SocketAddr} {ds : List Datagram}
    {st st' : RouterState} {o : SocketAddr} {r : Route}
    (hinv : RouterInv server st) (hl : st.routes.lookup o = none)
    (hrun : routerRun server st ds = Except.ok st')
    (hl' : st'.routes.lookup o = some r) :
    sentToSocket r.socketId st' =
      (ds.filter (fun d => d.origin == o)).map (fun d => d.set_destination server) := by
  induction ds generalizing st with
  | nil =>
    simp only [routerRun] at hrun
    cases hrun
    rw [hl] at hl'
    cases hl'
  | cons d ds ih =>
    by_cases ho : d.origin = o
    · have hlo : st.routes.lookup d.origin = none := by rw [ho]; exact hl
      have hstep := routerStep_fresh server hlo
      rw [routerRun_cons_ok hstep] at hrun
      have hinv1 := routerInv_step hinv hstep
      have hl1 : (st.routes ++
          [(d.origin, (⟨d.origin, st.nextSocketId, proxyBindSpec⟩ : Route))]).lookup o =
          some ⟨d.origin, st.nextSocketId, proxyBindSpec⟩ := by
        rw [lookup_append_of_none _ hl, ho, lookup_singleton_self]
      have hr : r = ⟨d.origin, st.nextSocketId, proxyBindSpec⟩ := by
        have := lookup_stable_run hl1 hrun
        rw [hl'] at this
        injection this with h
      subst hr
      have hmain := sentTo_run_existing hinv1 hl1 hrun
      rw [hmain]
      rw [show sentToSocket st.nextSocketId
          (⟨st.routes ++ [(d.origin, ⟨d.origin, st.nextSocketId, proxyBindSpec⟩)],
            st.nextSocketId + 1,
            st.backendSent ++ [(st.nextSocketId, d.set_destination server)]⟩ : RouterState) =
          sentToSocket st.nextSocketId st ++
            (if st.nextSocketId = st.nextSocketId then [d.set_destination server] else [])
        from sentToSocket_snoc _ _ _ st]
      have hempty : sentToSocket st.nextSocketId st = [] :=
        sentToSocket_of_forall_lt (fun q hq => (hinv.2.2 q hq).1)
      rw [hempty]
      simp [List.filter_cons, ho]
    · obtain ⟨st1, hst1⟩ := routerStep_total server st d
      have hl1 : st1.routes.lookup o = none := by
        cases hl2 : st.routes.lookup d.origin with
        | some r2 =>
          rw [routerStep_existing server true true hl2] at hst1
          cases hst1
          exact hl
        | none =>
          rw [routerStep_fresh server hl2] at hst1
          cases hst1
          rw [lookup_append_of_none _ hl]
          exact lookup_singleton_of_ne _ (fun he => ho he.symm)
      rw [routerRun_cons_ok hst1] at hrun
      have := ih (routerInv_step hinv hst1) hl1 hrun
      rw [this]
      simp [List.filter_cons, beq_false_of_ne ho]

theorem sendLoopRun_cons_some {d : Datagram} {action : SendAction}
    (h : sendLoopBody d = some action) (rest : List Datagram) :
    sendLoopRun (d :: rest) = action :: sendLoopRun rest := by
  simp only [sendLoopRun, h]

/-! ### Claim theorems -/

/-- C1: the first datagram from a client address makes the Router create
exactly one new backend socket, wrap it in a pump and record it in exactly
one new session keyed by that address (routes extended by that single entry,
socket counter advanced by one); every subsequent datagram from the same
address leaves the session table and the socket count unchanged, only
forwarding the datagram. -/
theorem C1_one_session_per_client (server : SocketAddr) (st : RouterState) (d : Datagram) :
    (st.routes.lookup d.origin = none →
      routerStep server true true st d = Except.ok
        ⟨st.routes ++ [(d.origin, ⟨d.origin, st.nextSocketId, proxyBindSpec⟩)],
         st.nextSocketId + 1,
         st.backendSent ++ [(st.nextSocketId, d.set_destination server)]⟩) ∧
    (∀ r, st.routes.lookup d.origin = some r →
      routerStep server true true st d = Except.ok
        { st with backendSent := st.backendSent ++ [(r.socketId, d.set_destination server)] }) :=
  ⟨fun h => routerStep_fresh server h, fun _ h => routerStep_existing server true true h⟩

theorem C1_one_session_per_client_witness :
    initState.routes.lookup dgA.origin = none ∧
    routerStep addrS true true initState dgA = Except.ok stA :=
  ⟨rfl, (C1_one_session_per_client addrS initState dgA).1 rfl⟩

/-- C2: a datagram received on a backend pump is given, as destination, the
client address that created that pump's session — never the address of any
other client, no matter how many sessions exist — and the result is what the
route's recv task enqueues onto the client-facing pump's outbound channel. -/
theorem C2_reply_reaches_owning_client (server : SocketAddr) (ds : List Datagram)
    (st : RouterState) (a : SocketAddr) (r : Route) (d : Datagram)
    (hrun : routerRun server initState ds = Except.ok st)
    (hmem : (a, r) ∈ st.routes) :
    (replyStep r.clientAddr d).destination = some a ∧
      ∀ b, b ≠ a → (replyStep r.clientAddr d).destination ≠ some b := by
  have hinv := routerInv_run (routerInv_init server) hrun
  have hc : r.clientAddr = a := (hinv.1 _ hmem).1
  refine ⟨by simp [replyStep, Datagram.set_destination, hc], ?_⟩
  intro b hb hcontra
  simp [replyStep, Datagram.set_destination, hc] at hcontra
  exact hb hcontra.symm

theorem C2_reply_reaches_owning_client_witness :
    routerRun addrS initState [dgA] = Except.ok stA ∧
    (addrA, (⟨addrA, 0, proxyBindSpec⟩ : Route)) ∈ stA.routes ∧
    (replyStep (Route.mk addrA 0 proxyBindSpec).clientAddr dgB).destination = some addrA :=
  ⟨rfl, by simp [stA],
    (C2_reply_reaches_owning_client addrS [dgA] stA addrA ⟨addrA, 0, proxyBindSpec⟩ dgB rfl
      (by simp [stA])).1⟩

/-- C3: a datagram freshly produced by a receive loop has destination unset
and origin the sender's address; every datagram the router enqueues onto a
backend pump's outbound channel carries the server address as destination,
and every datagram a route's recv task enqueues onto the client pump's
outbound channel carries the session's client address as destination. -/
theorem C3_destination_invariant :
    (∀ (data : List Nat) (o : SocketAddr),
        (recvDatagram data o).destination = none ∧ (recvDatagram data o).origin = o) ∧
    (∀ (server : SocketAddr) (ds : List Datagram) (st : RouterState),
        routerRun server initState ds = Except.ok st →
        ∀ q ∈ st.backendSent, q.2.destination = some server) ∧
    (∀ (c : SocketAddr) (d : Datagram), (replyStep c d).destination = some c) := by
  refine ⟨fun data o => ⟨rfl, rfl⟩, ?_, fun c d => rfl⟩
  intro server ds st hrun q hq
  exact ((routerInv_run (routerInv_init server) hrun).2.2 q hq).2

theorem C3_destination_invariant_witness :
    routerRun addrS initState [dgA] = Except.ok stA ∧
    ∀ q ∈ stA.backendSent, q.2.destination = some addrS :=
  ⟨rfl, C3_destination_invariant.2.1 addrS [dgA] stA rfl⟩

/-- C4: when the datagram taken from a pump's outbound channel has its
destination set, the send loop's missing-destination branch (the
unreachable panic) is not taken, and the full payload is written to the
socket addressed to that destination. -/
theorem C4_send_loop_delivers (message : Datagram) (a : SocketAddr)
    (h : message.destination = some a) :
    sendLoopBody message = some (SendAction.sendTo message.payload a) := by
  simp [sendLoopBody, h]

theorem C4_send_loop_delivers_witness :
    (dgA.set_destination addrS).destination = some addrS ∧
    sendLoopBody (dgA.set_destination addrS) =
      some (SendAction.sendTo (dgA.set_destination addrS).payload addrS) :=
  ⟨rfl, C4_send_loop_delivers _ addrS rfl⟩

/-- C5: DropChance::apply, given a datagram and a uniform roll in [0,1),
returns nothing exactly when the roll is below the configured probability
and otherwise returns the input unchanged; with probability 0 it never
drops and with probability 1 it always drops. -/
theorem C5_drop_chance (f : DropChance) (roll : Rat) (d : Datagram)
    (h0 : 0 ≤ roll) (h1 : roll < 1) :
    (f.apply roll d = none ↔ roll < f.drop_percent) ∧
    (¬ roll < f.drop_percent → f.apply roll d = some d) ∧
    DropChance.apply ⟨0⟩ roll d = some d ∧
    DropChance.apply ⟨1⟩ roll d = none := by
  refine ⟨?_, fun h => by simp [DropChance.apply, h], ?_, ?_⟩
  · by_cases h : roll < f.drop_percent <;> simp [DropChance.apply, h]
  · simp only [DropChance.apply]
    rw [if_neg (not_lt.mpr h0)]
  · simp only [DropChance.apply]
    rw [if_pos h1]

theorem C5_drop_chance_witness :
    (0 : Rat) ≤ 1/4 ∧ (1/4 : Rat) < 1 ∧ DropChance.apply ⟨1⟩ (1/4) dgA = none :=
  ⟨by norm_num, by norm_num,
    (C5_drop_chance ⟨1/2⟩ (1/4) dgA (by norm_num) (by norm_num)).2.2.2⟩

/-- C6: within a single pump loop, datagrams are processed first-in
first-out — the send loop writes messages in exactly the order they were
enqueued on the outbound channel — and the datagrams a single client sends
arrive at that client's backend socket in the same relative order, each
stamped toward the server. -/
theorem C6_fifo_per_direction :
    (∀ q1 q2 : List Datagram, (∀ d ∈ q1 ++ q2, d.destination.isSome = true) →
        sendLoopRun (q1 ++ q2) = sendLoopRun q1 ++ sendLoopRun q2) ∧
    (∀ (server : SocketAddr) (ds : List Datagram) (st : RouterState)
        (o : SocketAddr) (r : Route),
        routerRun server initState ds = Except.ok st →
        st.routes.lookup o = some r →
        sentToSocket r.socketId st =
          (ds.filter (fun d => d.origin == o)).map (fun d => d.set_destination server)) := by
  constructor
  · intro q1 q2 h
    induction q1 with
    | nil => simp [sendLoopRun]
    | cons d q1 ih =>
      have hd : d.destination.isSome = true := h d (by simp)
      obtain ⟨a, ha⟩ := Option.isSome_iff_exists.mp hd
      have hb : sendLoopBody d = some (SendAction.sendTo d.payload a) := by
        simp [sendLoopBody, ha]
      rw [List.cons_append, sendLoopRun_cons_some hb, sendLoopRun_cons_some hb,
        ih (fun x hx => h x (List.mem_cons_of_mem _ hx)), List.cons_append]
  · intro server ds st o r hrun hl
    exact sentTo_run_fresh (routerInv_init server) rfl hrun hl

theorem C6_fifo_per_direction_witness :
    (∀ d ∈ [dgA.set_destination addrS] ++ [dgA2.set_destination addrS],
        d.destination.isSome = true) ∧
    sendLoopRun ([dgA.set_destination addrS] ++ [dgA2.set_destination addrS]) =
      sendLoopRun [dgA.set_destination addrS] ++ sendLoopRun [dgA2.set_destination addrS] ∧
    routerRun addrS initState [dgA, dgB, dgA2] = Except.ok stABA ∧
    stABA.routes.lookup addrA = some ⟨addrA, 0, proxyBindSpec⟩ ∧
    sentToSocket 0 stABA =
      ([dgA, dgB, dgA2].filter (fun d => d.origin == addrA)).map
        (fun d => d.set_destination addrS) :=
  ⟨by decide, C6_fifo_per_direction.1 _ _ (by decide), rfl, by decide,
    C6_fifo_per_direction.2 addrS [dgA, dgB, dgA2] stABA addrA
      ⟨addrA, 0, proxyBindSpec⟩ rfl (by decide)⟩

/-- C7 counterexample: on the first datagram from a fresh client with the
backend bind failing, the router iteration does not carry on with a state
(which dropping only that datagram and staying alive would require); it
panics, terminating the router task. -/
theorem C7_counterexample :
    ¬ ∃ st', routerStep addrS false true initState dgA = Except.ok st' := by
  intro h
  obtain ⟨st', h⟩ := h
  have hb : initState.routes.lookup dgA.origin = none := rfl
  rw [routerStep_bindFail addrS true hb] at h
  cases h

/-- C7 amended: when session creation fails — the backend socket cannot
bind, or cannot be connected to the server address — the router task panics
through the corresponding expect and terminates; no partial session is
installed and the datagram is not forwarded, but the Router does not remain
alive and no later retry happens. -/
theorem C7_session_failure_panics (server : SocketAddr) (connectOk : Bool)
    (st : RouterState) (d : Datagram) (h : st.routes.lookup d.origin = none) :
    routerStep server false connectOk st d = Except.error Panic.bindFail ∧
    routerStep server true false st d = Except.error Panic.connectFail :=
  ⟨routerStep_bindFail server connectOk h, routerStep_connectFail server h⟩

theorem C7_session_failure_panics_witness :
    initState.routes.lookup dgA.origin = none ∧
    routerStep addrS false true initState dgA = Except.error Panic.bindFail :=
  ⟨rfl, (C7_session_failure_panics addrS true initState dgA rfl).1⟩

/-- C8: a drop probability supplied on the command line — in particular one
outside [0,1] — is a configuration error at startup: the Args struct has no
drop_percent option (it is commented out in the source), so the parser
rejects it and the process exits before any socket is bound; and the
running router applies no filter to any datagram — every datagram a
successful router iteration handles is forwarded — so no per-packet
probability is in play at all (the claim's universal statement about
applied DropChance filters holds vacuously). -/
theorem C8_drop_percent_config_error :
    (∀ (parsePort : String → Option Nat) (parseAddr : String → Option SocketAddr)
        (argv : List (String × String)) (v : String),
        ("--drop-percent", v) ∈ argv →
        mainStartup parsePort parseAddr argv = StartupResult.configError) ∧
    (∀ (server : SocketAddr) (bindOk connectOk : Bool) (st st' : RouterState) (d : Datagram),
        routerStep server bindOk connectOk st d = Except.ok st' →
        st'.backendSent.length = st.backendSent.length + 1) := by
  constructor
  · intro parsePort parseAddr argv v hv
    have hall : argv.all (fun a => knownOptions.contains a.1) = false := by
      rw [List.all_eq_false]
      refine ⟨("--drop-percent", v), hv, ?_⟩
      show ¬ knownOptions.contains ("--drop-percent") = true
      decide
    simp only [mainStartup, parseArgs]
    rw [hall]
    simp
  · intro server bindOk connectOk st st' d h
    cases hl : st.routes.lookup d.origin with
    | some r =>
      rw [routerStep_existing server bindOk connectOk hl] at h
      cases h
      simp
    | none =>
      cases bindOk with
      | false =>
        rw [routerStep_bindFail server connectOk hl] at h
        cases h
      | true =>
        cases connectOk with
        | false =>
          rw [routerStep_connectFail server hl] at h
          cases h
        | true =>
          rw [routerStep_fresh server hl] at h
          cases h
          simp

theorem C8_drop_percent_config_error_witness :
    (("--drop-percent", "1.5")) ∈ [(("--drop-percent", "1.5"))] ∧
    mainStartup (fun _ => none) (fun _ => none) [(("--drop-percent", "1.5"))] =
      StartupResult.configError :=
  ⟨List.mem_singleton.mpr rfl,
    C8_drop_percent_config_error.1 (fun _ => none) (fun _ => none) _ ("1.5")
      (List.mem_singleton.mpr rfl)⟩

/-- C9: Datagram::set_destination changes only the destination field —
payload and origin come through unchanged — so the datagram a route's recv
task forwards on the server-to-client path keeps the origin recorded by the
backend pump's receive loop. -/
theorem C9_set_destination_frame :
    (∀ (d : Datagram) (a : SocketAddr),
        (d.set_destination a).payload = d.payload ∧
        (d.set_destination a).origin = d.origin ∧
        (d.set_destination a).destination = some a) ∧
    (∀ (c : SocketAddr) (d : Datagram),
        (replyStep c d).payload = d.payload ∧ (replyStep c d).origin = d.origin) :=
  ⟨fun _ _ => ⟨rfl, rfl, rfl⟩, fun _ _ => ⟨rfl, rfl⟩⟩

/-- C10: every per-client backend socket the router creates is bound on
127.0.0.1 with port 0 (an OS-assigned ephemeral port), whatever the
configured server address; the client-facing socket of main binds on
0.0.0.0 at the configured listen port. -/
theorem C10_bind_addresses :
    (∀ (server : SocketAddr) (ds : List Datagram) (st : RouterState),
        routerRun server initState ds = Except.ok st →
        ∀ p ∈ st.routes, p.2.bindSpec = ⟨⟨127, 0, 0, 1⟩, 0⟩) ∧
    (∀ listen_port : Nat, clientBindSpec listen_port = ⟨⟨0, 0, 0, 0⟩, listen_port⟩) := by
  constructor
  · intro server ds st hrun p hp
    exact ((routerInv_run (routerInv_init server) hrun).1 p hp).2.1
  · intro lp
    rfl

theorem C10_bind_addresses_witness :
    routerRun addrS initState [dgA] = Except.ok stA ∧
    ∀ p ∈ stA.routes, p.2.bindSpec = ⟨⟨127, 0, 0, 1⟩, 0⟩ :=
  ⟨rfl, C10_bind_addresses.1 addrS [dgA] stA rfl⟩

end Retiarius
